import Mathlib

/-!
Verification of the leaf-disease detection pipeline
(`src/utils.py` and `src/main_flow.py`) against its specification.

The Python code is shallowly embedded: pure data transforms become Lean
functions over `ℚ`/`ℤ`/`List`, fallible operations return `Except PyError`,
and the Metaflow pipeline steps become explicit state transformers over a
`FlowState` record mirroring the `self.*` attributes, with external effects
(S3, W&B, SageMaker) passed in as explicit inputs and recorded as events.
-/

namespace PlantDisease

/-- Errors a Python expression in the embedded fragment can raise. -/
inductive PyError where
  | keyError (key : String)
  | indexError
  | assertionError
  | invalidArgument
  deriving DecidableEq, Repr

/-- Python `int(x)` on a real number: truncation toward zero (embedded
numbers are rationals; `Int.tdiv` is t-division, i.e. rounding toward 0). -/
def pyInt (q : ℚ) : ℤ :=
  Int.tdiv q.num (q.den : ℤ)

/-- Python 3 `round(x)` to an integer: round half to even. -/
def pyRound (q : ℚ) : ℤ :=
  let f : ℤ := ⌊q⌋
  let r : ℚ := q - (f : ℚ)
  if r < 1/2 then f
  else if 1/2 < r then f + 1
  else if f % 2 = 0 then f else f + 1

/-- Python `l[i]` on a list with a non-negative index: `IndexError` when out
of range. -/
def pyGet {α : Type} (l : List α) (i : ℕ) : Except PyError α :=
  match l[i]? with
  | some x => Except.ok x
  | none => Except.error PyError.indexError

/-- Python truthiness of an optional list (`if confidence_list:`): `None`
and the empty list are falsy, a non-empty list is truthy. -/
def pyTruthyListOpt {α : Type} : Option (List α) → Bool
  | none => false
  | some l => !l.isEmpty

/-- Python dict access `m[k]` for the `class_mapping` table: `KeyError` when
the key is absent. -/
def dictGet (m : List (ℤ × String)) (k : ℤ) : Except PyError String :=
  match m.lookup k with
  | some v => Except.ok v
  | none => Except.error (PyError.keyError (toString k))

/-- The module-level `class_mapping` table of `src/utils.py`. -/
def class_mapping : List (ℤ × String) :=
  [(1, "Apple Scab Leaf"),
   (2, "Apple leaf"),
   (3, "Apple rust leaf"),
   (4, "Bell_pepper leaf"),
   (5, "Bell_pepper leaf spot"),
   (6, "Blueberry leaf"),
   (7, "Cherry leaf"),
   (8, "Corn Gray leaf spot"),
   (9, "Corn leaf blight"),
   (10, "Corn rust leaf"),
   (11, "Peach leaf"),
   (12, "Potato leaf"),
   (13, "Potato leaf early blight"),
   (14, "Potato leaf late blight"),
   (15, "Raspberry leaf"),
   (16, "Soyabean leaf"),
   (17, "Soybean leaf"),
   (18, "Squash Powdery mildew leaf"),
   (19, "Strawberry leaf"),
   (20, "Tomato Early blight leaf"),
   (21, "Tomato Septoria leaf spot"),
   (22, "Tomato leaf"),
   (23, "Tomato leaf bacterial spot"),
   (24, "Tomato leaf late blight"),
   (25, "Tomato leaf mosaic virus"),
   (26, "Tomato leaf yellow virus"),
   (27, "Tomato mold leaf"),
   (28, "Tomato two spotted spider mites leaf"),
   (29, "grape leaf"),
   (30, "grape leaf black rot")]

/-- The WandB `position` sub-dictionary built by
`convert_format_keras_to_wandb`. -/
structure Position where
  minX : ℤ
  maxX : ℤ
  minY : ℤ
  maxY : ℤ
  deriving DecidableEq, Repr

/-- One `box_data` dictionary in the WandB format. -/
structure BoxData where
  position : Position
  class_id : ℤ
  box_caption : String
  domain : String
  deriving DecidableEq, Repr

/-- One iteration of the `for b_i, box in enumerate(box_list)` loop of
`convert_format_keras_to_wandb`:
`minX, maxX, minY, maxY = int(box[0]), int(box[2]), int(box[1]), int(box[3])`,
`class_id = int(classes_list[b_i])`, then the `if confidence_list:` branch
builds `box_data` with a confidence percentage in the caption and the
`else` branch builds it with the bare class name. -/
def convertBox (mapping : List (ℤ × String)) (classes_list : List ℚ)
    (confidence_list : Option (List ℚ)) (b_i : ℕ) (box : List ℚ) :
    Except PyError BoxData := do
  let v0 ← pyGet box 0
  let v2 ← pyGet box 2
  let v1 ← pyGet box 1
  let v3 ← pyGet box 3
  let minX := pyInt v0
  let maxX := pyInt v2
  let minY := pyInt v1
  let maxY := pyInt v3
  let c ← pyGet classes_list b_i
  let class_id := pyInt c
  if pyTruthyListOpt confidence_list then do
    let cl := confidence_list.getD []
    let cv ← pyGet cl b_i
    let confidence := pyRound (100 * cv)
    let name ← dictGet mapping class_id
    Except.ok
      { position := { minX := minX, maxX := maxX, minY := minY, maxY := maxY },
        class_id := class_id,
        box_caption := name ++ " (" ++ toString confidence ++ "%)",
        domain := "pixel" }
  else do
    let name ← dictGet mapping class_id
    Except.ok
      { position := { minX := minX, maxX := maxX, minY := minY, maxY := maxY },
        class_id := class_id,
        box_caption := name,
        domain := "pixel" }

/-- The `enumerate` loop of `convert_format_keras_to_wandb`, appending each
`box_data` to `all_boxes`; the first raised error aborts the call. -/
def convertLoop (mapping : List (ℤ × String)) (classes_list : List ℚ)
    (confidence_list : Option (List ℚ)) (b_i : ℕ) :
    List (List ℚ) → Except PyError (List BoxData)
  | [] => Except.ok []
  | box :: rest => do
    let bd ← convertBox mapping classes_list confidence_list b_i box
    let tail ← convertLoop mapping classes_list confidence_list (b_i + 1) rest
    Except.ok (bd :: tail)

/-- Embedding of `convert_format_keras_to_wandb` with the module global
`class_mapping` made an explicit parameter (the function's only non-argument input). -/
def convert_format_keras_to_wandb_core (mapping : List (ℤ × String))
    (box_list : List (List ℚ)) (classes_list : List ℚ)
    (confidence_list : Option (List ℚ)) : Except PyError (List BoxData) :=
  convertLoop mapping classes_list confidence_list 0 box_list

/-- The function `convert_format_keras_to_wandb` of `src/utils.py` (with
`confidence_list=None` expressed as `none`). -/
def convert_format_keras_to_wandb (box_list : List (List ℚ))
    (classes_list : List ℚ) (confidence_list : Option (List ℚ) := none) :
    Except PyError (List BoxData) :=
  convert_format_keras_to_wandb_core class_mapping box_list classes_list confidence_list

/-- A decoded image as `tf.image.decode_jpeg(..., channels=3)` yields it:
a height x width grid of 3-channel (R, G, B) uint8 pixels. -/
structure Image where
  height : ℕ
  width : ℕ
  pixels : List (List (ℕ × ℕ × ℕ))
  deriving DecidableEq, Repr

/-- A TFRecord example after `tf.io.parse_single_example` with the feature
description of `parse_tfrecord_fn` and `tf.sparse.to_dense` on the VarLen
features: one encoded image (raw bytes), the two scalar int64 features, the
four dense coordinate vectors and the dense label vector. -/
structure RawExample where
  image_encoded : List ℕ
  image_height : ℤ
  image_width : ℤ
  bbox_xmin : List ℚ
  bbox_xmax : List ℚ
  bbox_ymin : List ℚ
  bbox_ymax : List ℚ
  class_label : List ℤ
  deriving DecidableEq, Repr

/-- Row-wise zip of the four coordinate vectors, as
`tf.stack([xmin, ymin, xmax, ymax], axis=-1)` lays the data out. -/
def stackRows : List ℚ → List ℚ → List ℚ → List ℚ → List (List ℚ)
  | a :: as, b :: bs, c :: cs, d :: ds => [a, b, c, d] :: stackRows as bs cs ds
  | _, _, _, _ => []

/-- Embedding of `tf.stack([xmin, ymin, xmax, ymax], axis=-1)`: an `InvalidArgumentError`
unless the four vectors have one common length, else the `[num_boxes, 4]`
tensor of rows `[xmin_i, ymin_i, xmax_i, ymax_i]`. -/
def tfStack4 (xmin ymin xmax ymax : List ℚ) : Except PyError (List (List ℚ)) :=
  if xmin.length = ymin.length ∧ xmin.length = xmax.length ∧ xmin.length = ymax.length then
    Except.ok (stackRows xmin ymin xmax ymax)
  else Except.error PyError.invalidArgument

/-- Embedding of `keras_cv.bounding_box.convert_format` from `rel_xyxy` to
`xyxy` with `images=img`: relative coordinates are scaled by the image's size, x by its
width and y by its height. -/
def convert_format_rel_xyxy_to_xyxy (img : Image) (boxes : List (List ℚ)) :
    List (List ℚ) :=
  boxes.map fun b =>
    match b with
    | [x0, y0, x1, y1] =>
        [x0 * (img.width : ℚ), y0 * (img.height : ℚ),
         x1 * (img.width : ℚ), y1 * (img.height : ℚ)]
    | other => other

/-- The `bounding_boxes` sub-dictionary built by `parse_tfrecord_fn`. -/
structure BoundingBoxes where
  classes : List ℤ
  boxes : List (List ℚ)
  deriving DecidableEq, Repr

/-- The dictionary `parse_tfrecord_fn` returns: keys `images` and
`bounding_boxes`. -/
structure ImageDataset where
  images : Image
  bounding_boxes : BoundingBoxes
  deriving DecidableEq, Repr

/-- The function `parse_tfrecord_fn` of `src/utils.py`. JPEG decoding is an external
library call, passed in as the function `decode_jpeg`; the example arrives
as its parsed features (`RawExample`). The image is decoded, the four
coordinate vectors are stacked into `[num_boxes, 4]` rows, converted from
`rel_xyxy` to `xyxy` against the decoded image, and the result dictionary
is assembled. -/
def parse_tfrecord_fn (decode_jpeg : List ℕ → Image) (ex : RawExample) :
    Except PyError ImageDataset := do
  let img := decode_jpeg ex.image_encoded
  let rel_boxes ← tfStack4 ex.bbox_xmin ex.bbox_ymin ex.bbox_xmax ex.bbox_ymax
  let boxes := convert_format_rel_xyxy_to_xyxy img rel_boxes
  Except.ok { images := img, bounding_boxes := { classes := ex.class_label, boxes := boxes } }

/-- The module-level globals of `src/utils.py` that its functions can read
or write; `class_mapping` is the only one they touch. -/
structure UtilsGlobals where
  class_mapping : List (ℤ × String)
  deriving DecidableEq, Repr

/-- A call of `convert_format_keras_to_wandb` with explicit Python global
state threaded through: the body reads the module global `class_mapping`
and assigns no global, so the state passes through unchanged. -/
def convert_format_keras_to_wandb_call (g : UtilsGlobals)
    (box_list : List (List ℚ)) (classes_list : List ℚ)
    (confidence_list : Option (List ℚ)) :
    UtilsGlobals × Except PyError (List BoxData) :=
  (g, convert_format_keras_to_wandb_core g.class_mapping box_list classes_list confidence_list)

/-- A call of `parse_tfrecord_fn` with explicit Python global state threaded
through: the body reads and assigns no module global. -/
def parse_tfrecord_fn_call (g : UtilsGlobals) (decode_jpeg : List ℕ → Image)
    (ex : RawExample) : UtilsGlobals × Except PyError ImageDataset :=
  (g, parse_tfrecord_fn decode_jpeg ex)

/-- The named `@step`s of the `main_flow` FlowSpec in `src/main_flow.py`
(`end` is a Lean keyword, rendered `end_`). -/
inductive Stage where
  | start
  | augment_data_train_model
  | evaluate_model
  | deploy
  | end_
  deriving DecidableEq, Repr, Fintype

/-- The `self.next(...)` transition each step registers; `end` has no
successor. -/
def nextStage : Stage → Option Stage
  | Stage.start => some Stage.augment_data_train_model
  | Stage.augment_data_train_model => some Stage.evaluate_model
  | Stage.evaluate_model => some Stage.deploy
  | Stage.deploy => some Stage.end_
  | Stage.end_ => none

/-- The order in which a successful run visits the flow's stages. -/
def stageOrder : List Stage :=
  [Stage.start, Stage.augment_data_train_model, Stage.evaluate_model,
   Stage.deploy, Stage.end_]

/-- The seven environment variables `start` asserts. -/
def required_env_vars : List String :=
  ["WANDB_API_KEY", "WANDB_ENTITY", "WANDB_PROJECT", "S3_BUCKET_ADDRESS",
   "KAGGLE_USERNAME", "KAGGLE_KEY", "IAM_ROLE_SAGEMAKER"]

/-- Python `os.environ[key]`: `KeyError` when the variable is unset. -/
def os_environ_get (env : String → Option String) (key : String) :
    Except PyError String :=
  match env key with
  | some v => Except.ok v
  | none => Except.error (PyError.keyError key)

/-- Python `assert expr`: `AssertionError` when the expression is falsy. -/
def py_assert (condition : Bool) : Except PyError Unit :=
  if condition then Except.ok () else Except.error PyError.assertionError

/-- One `assert os.environ[key]` line of the `start` step: `KeyError` when
the variable is unset, `AssertionError` when it is the (falsy) empty
string. -/
def assert_env (env : String → Option String) (key : String) :
    Except PyError Unit := do
  let v ← os_environ_get env key
  py_assert (!(v == ""))

/-- The `start` step: asserts the seven environment variables in source
order, then registers `self.next(self.augment_data_train_model)`. The
returned stage is the one a run proceeds to; an error aborts the run, so
no later stage executes. -/
def start (env : String → Option String) : Except PyError Stage := do
  assert_env env "WANDB_API_KEY"
  assert_env env "WANDB_ENTITY"
  assert_env env "WANDB_PROJECT"
  assert_env env "S3_BUCKET_ADDRESS"
  assert_env env "KAGGLE_USERNAME"
  assert_env env "KAGGLE_KEY"
  assert_env env "IAM_ROLE_SAGEMAKER"
  Except.ok Stage.augment_data_train_model

/-- The `self.config` dictionary built by `augment_data_train_model`. -/
structure Config where
  base_lr : ℚ
  loss : String
  epoch : ℕ
  batch_size : ℕ
  classification_loss : String
  box_loss : String
  num_examples : ℕ
  bbox_format : String
  img_size : ℕ
  patience : ℕ
  iou_threshold : ℚ
  confidence_threshold : ℚ
  deriving DecidableEq, Repr

/-- The literal dictionary assigned to `self.config` in
`augment_data_train_model` (before the `TESTING` adjustment). -/
def initial_train_config : Config :=
  { base_lr := 1/10000,
    loss := "sparse_categorical_crossentropy",
    epoch := 40,
    batch_size := 32,
    classification_loss := "focal",
    box_loss := "smoothl1",
    num_examples := 6,
    bbox_format := "xyxy",
    img_size := 416,
    patience := 6,
    iou_threshold := 1/5,
    confidence_threshold := 3/5 }

/-- Embedding of `self.model = {'model': model.to_json(), 'model_weights':
model.get_weights()}`: the serialized architecture and the weight values
(weights abstracted as one flat list of numbers). -/
structure SerializedModel where
  model : String
  model_weights : List ℚ
  deriving DecidableEq, Repr

/-- A value held by one of the dynamically typed tensor-ish `self.*`
attributes: a scalar, a vector, a matrix (e.g. `[num_boxes, 4]`), or a
rank-3 ragged batch. -/
inductive TensorVal where
  | t0 (v : ℚ)
  | t1 (v : List ℚ)
  | t2 (v : List (List ℚ))
  | t3 (v : List (List (List ℚ)))
  deriving DecidableEq, Repr

/-- The `predictions[0]` dictionary a SageMaker endpoint (or
`model.predict` after decoding) returns: dense `boxes` and `classes`
(padded with class `-1` rows). -/
structure DeployPred where
  boxes : List (List ℚ)
  classes : List ℚ
  deriving DecidableEq, Repr

/-- The `self.*` artifact attributes of the `main_flow` instance: `none`
until the owning step assigns them. -/
structure FlowState where
  config : Option Config := none
  train_tfrecord_file : Option String := none
  val_tfrecord_file : Option String := none
  run_id : Option String := none
  model : Option SerializedModel := none
  s3_path : Option String := none
  image : Option (List Image) := none
  confidence : Option (List ℚ) := none
  y_pred : Option (TensorVal × TensorVal) := none
  boxes : Option TensorVal := none
  classes : Option TensorVal := none
  box_list : Option TensorVal := none
  classes_list : Option TensorVal := none
  result : Option DeployPred := none
  boxes_tensor : Option (List (List ℚ)) := none
  classes_tensor : Option (List ℚ) := none
  tensor_dict : Option DeployPred := none
  deriving DecidableEq, Repr

/-- What the external world hands `augment_data_train_model`: the W&B run
id, the trained model (as `to_json` text and weights) and the URL
`s3.put` returns for the uploaded tar archive. -/
structure AugmentResult where
  run_id : String
  model_json : String
  model_weights : List ℚ
  s3_put_url : String
  deriving DecidableEq, Repr

/-- The `augment_data_train_model` step's writes to `self`: the config
dictionary (epochs cut to 2 under `TESTING`), the two local TFRecord file
names, the W&B run id, the serialized best model and the S3 path of the
uploaded model archive. -/
def augment_data_train_model (ext : AugmentResult) (testing : Bool)
    (s : FlowState) : FlowState :=
  let config0 := initial_train_config
  let config := if testing then { config0 with epoch := 2 } else config0
  { s with
    config := some config,
    train_tfrecord_file := some "train_leaves.tfrecord",
    val_tfrecord_file := some "val_test_leaves.tfrecord",
    run_id := some ext.run_id,
    model := some { model := ext.model_json, model_weights := ext.model_weights },
    s3_path := some ext.s3_put_url }

/-- Embedding of `keras_cv.bounding_box.to_ragged` on one batch element: the padding
entries, whose class is `-1`, are dropped. -/
def to_ragged_single (boxes : List (List ℚ)) (classes : List ℚ) :
    List (List ℚ) × List ℚ :=
  let kept := (classes.zip boxes).filter (fun p => p.1 ≠ -1)
  (kept.map Prod.snd, kept.map Prod.fst)

/-- Embedding of `keras_cv.bounding_box.to_ragged` on a batched prediction: per batch
element, the padding entries (class `-1`) are dropped. -/
def to_ragged_batch (boxes : List (List (List ℚ))) (classes : List (List ℚ)) :
    List (List (List ℚ)) × List (List ℚ) :=
  let pairs := (classes.zip boxes).map (fun bc => to_ragged_single bc.2 bc.1)
  (pairs.map Prod.fst, pairs.map Prod.snd)

/-- One validation example inside `evaluate_model`'s loop: the parsed image
and the raw `model.predict` output on it (batch dimension 1, padded with
`-1`). -/
structure EvalExample where
  image : Image
  pred_boxes : List (List (List ℚ))
  pred_classes : List (List ℚ)
  pred_confidence : List (List ℚ)
  deriving DecidableEq, Repr

/-- One iteration of `evaluate_model`'s `for example in
val_dataset.take(config.num_examples)` loop, keeping only its writes to
`self`: the batched image, the `-1`-filtered confidence vector, the ragged
prediction, and the batch-stripped box and class lists. -/
def eval_example_step (s : FlowState) (ex : EvalExample) : FlowState :=
  let confidence0 := ex.pred_confidence.headD []
  let conf_kept := confidence0.filter (fun conf => conf ≠ -1)
  let ragged := to_ragged_batch ex.pred_boxes ex.pred_classes
  let box_list0 := ragged.1
  let classes_list0 := ragged.2
  { s with
    image := some [ex.image],
    confidence := some conf_kept,
    y_pred := some (TensorVal.t3 ragged.1, TensorVal.t2 ragged.2),
    boxes := some (TensorVal.t3 ragged.1),
    classes := some (TensorVal.t2 ragged.2),
    box_list := some (TensorVal.t2 (box_list0.headD [])),
    classes_list := some (TensorVal.t1 (classes_list0.headD [])) }

/-- What `evaluate_model` reads from `self` while it runs: the W&B run id
it resumes (`id=self.run_id`) and the weights it loads into the rebuilt
model (`model.set_weights(self.model['model_weights'])`). -/
structure EvalLog where
  wandb_resume_id : Option String
  set_weights_arg : Option (List ℚ)
  deriving DecidableEq, Repr

/-- The `evaluate_model` step: resumes the W&B run recorded by the previous
step, rebuilds the model from `self.model['model_weights']`, then loops
over `config.num_examples` validation examples; each iteration overwrites
the same `self.*` attributes, every other attribute is untouched. -/
def evaluate_model (examples : List EvalExample) (s : FlowState) :
    FlowState × EvalLog :=
  let log : EvalLog :=
    { wandb_resume_id := s.run_id,
      set_weights_arg := s.model.map SerializedModel.model_weights }
  let n := (s.config.map Config.num_examples).getD 0
  ((examples.take n).foldl eval_example_step s, log)

/-- An effect of the `deploy` step on the SageMaker endpoint fleet. -/
inductive AwsEvent where
  | createEndpoint (endpoint_name : String) (model_data : Option String)
      (instance_type : String)
  | predictCall (endpoint_name : String)
  | deleteEndpoint (endpoint_name : String)
  deriving DecidableEq, Repr

/-- Embedding of the line
`ENDPOINT_NAME = f'detection-{int(round(time.time() * 1000))}-endpoint'`. -/
def endpoint_name_of (now_ms : ℤ) : String :=
  "detection-" ++ toString now_ms ++ "-endpoint"

/-- What the external world hands `deploy`: the millisecond timestamp used
for the endpoint name, and `result['predictions'][0]` from the test
prediction. -/
structure DeployExt where
  now_ms : ℤ
  predictions : DeployPred
  deriving DecidableEq, Repr

/-- The `deploy` step: names an endpoint from the clock, creates it from
the model archive at `self.s3_path` (`TensorFlowModel(model_data=
self.s3_path, ...)` + `model.deploy`), sends one test image through it,
stores the prediction and its reshaped forms on `self`, and then deletes
the endpoint (`predictor.delete_endpoint()`) before `self.next(self.end)`.
Returns the new state and the endpoint events in program order. -/
def deploy (ext : DeployExt) (sagemaker_instance : String) (s : FlowState) :
    FlowState × List AwsEvent :=
  let endpoint_name := endpoint_name_of ext.now_ms
  let res := ext.predictions
  let s1 := { s with
    result := some res,
    boxes := some (TensorVal.t2 res.boxes),
    classes := some (TensorVal.t1 res.classes),
    boxes_tensor := some res.boxes,
    classes_tensor := some res.classes,
    tensor_dict := some res }
  let ragged := to_ragged_single res.boxes res.classes
  let box_list0 := ragged.1
  let classes_list0 := ragged.2
  let s2 := { s1 with
    y_pred := some (TensorVal.t2 ragged.1, TensorVal.t1 ragged.2),
    boxes := some (TensorVal.t2 ragged.1),
    classes := some (TensorVal.t1 ragged.2),
    box_list := some (TensorVal.t2 box_list0),
    classes_list := some (TensorVal.t1 classes_list0) }
  let s3 := if box_list0.isEmpty then s2
    else { s2 with
      box_list := some (TensorVal.t1 (box_list0.headD [])),
      classes_list := some (TensorVal.t0 (classes_list0.headD 0)) }
  (s3, [AwsEvent.createEndpoint endpoint_name s.s3_path sagemaker_instance,
        AwsEvent.predictCall endpoint_name,
        AwsEvent.deleteEndpoint endpoint_name])

/-- The set of live endpoints after a list of endpoint events, from a given
initial fleet: a create adds the name, a delete removes it. -/
def liveEndpoints (events : List AwsEvent) (live : List String) : List String :=
  events.foldl
    (fun acc e =>
      match e with
      | AwsEvent.createEndpoint n _ _ => acc ++ [n]
      | AwsEvent.predictCall _ => acc
      | AwsEvent.deleteEndpoint n => acc.filter (fun m => m ≠ n))
    live

/-- A fresh flow state: no `self.*` artifact attribute assigned yet. -/
def flowState0 : FlowState := {}

/-- Concrete training-stage outputs used in concrete instantiations. -/
def augmentResult0 : AugmentResult :=
  { run_id := "wandb-run-0",
    model_json := "retinanet-architecture",
    model_weights := [0],
    s3_put_url := "s3://bucket/main_flow/data/model-0.0001.tar.gz" }

/-- Concrete deploy-stage inputs used in concrete instantiations. -/
def deployExt0 : DeployExt :=
  { now_ms := 1720463605573, predictions := { boxes := [], classes := [] } }

/-- The flow state a concrete run reaches when `deploy` begins: the fresh
state taken through `augment_data_train_model` and `evaluate_model`. -/
def deployUpstreamState : FlowState :=
  (evaluate_model [] (augment_data_train_model augmentResult0 true flowState0)).1

/-- The module globals of `src/utils.py` as the source defines them. -/
def utilsGlobals0 : UtilsGlobals := { class_mapping := class_mapping }

/-- Variant module globals whose table differs from `utilsGlobals0` outside
the looked-up keys. -/
def utilsGlobals1 : UtilsGlobals := { class_mapping := (29, "renamed leaf") :: class_mapping }

/-! ## Supporting lemmas -/

/-- A `pyGet` call succeeds exactly on an in-range index. -/
theorem pyGet_ok {α : Type} {l : List α} {i : ℕ} {a : α} :
    pyGet l i = Except.ok a ↔ l[i]? = some a := by
  unfold pyGet
  cases h : l[i]? <;> simp

/-- One loop iteration of `convert_format_keras_to_wandb` when
`confidence_list` is falsy (absent or empty): the bare-caption dictionary. -/
theorem convertBox_falsy (mapping : List (ℤ × String)) (classes_list : List ℚ)
    (confidence_list : Option (List ℚ)) (hfalsy : pyTruthyListOpt confidence_list = false)
    (b_i : ℕ) (x0 x1 x2 x3 : ℚ) (c : ℚ) (name : String)
    (hc : classes_list[b_i]? = some c)
    (hname : mapping.lookup (pyInt c) = some name) :
    convertBox mapping classes_list confidence_list b_i [x0, x1, x2, x3] =
      Except.ok { position := { minX := pyInt x0, maxX := pyInt x2, minY := pyInt x1, maxY := pyInt x3 },
                  class_id := pyInt c, box_caption := name, domain := "pixel" } := by
  simp [convertBox, pyGet, Bind.bind, Except.bind, hc, hfalsy, dictGet, hname]

/-- One loop iteration of `convert_format_keras_to_wandb` when
`confidence_list` is a non-empty list: the percentage-caption dictionary. -/
theorem convertBox_truthy (mapping : List (ℤ × String)) (classes_list : List ℚ)
    (cl : List ℚ) (hne : cl ≠ [])
    (b_i : ℕ) (x0 x1 x2 x3 : ℚ) (c cv : ℚ) (name : String)
    (hc : classes_list[b_i]? = some c)
    (hcv : cl[b_i]? = some cv)
    (hname : mapping.lookup (pyInt c) = some name) :
    convertBox mapping classes_list (some cl) b_i [x0, x1, x2, x3] =
      Except.ok { position := { minX := pyInt x0, maxX := pyInt x2, minY := pyInt x1, maxY := pyInt x3 },
                  class_id := pyInt c,
                  box_caption := name ++ " (" ++ toString (pyRound (100 * cv)) ++ "%)",
                  domain := "pixel" } := by
  have ht : pyTruthyListOpt (some cl) = true := by
    simp [pyTruthyListOpt, hne]
  simp [convertBox, pyGet, Bind.bind, Except.bind, hc, ht, hcv, dictGet, hname]

/-- The full conversion loop on well-formed input, falsy confidence case. -/
theorem convertLoop_ok_falsy (mapping : List (ℤ × String)) (classes_list : List ℚ)
    (confidence_list : Option (List ℚ)) (hfalsy : pyTruthyListOpt confidence_list = false) :
    ∀ (box_list : List (List ℚ)) (b_i : ℕ),
      (∀ b ∈ box_list, b.length = 4) →
      b_i + box_list.length ≤ classes_list.length →
      (∀ c ∈ classes_list, (mapping.lookup (pyInt c)).isSome = true) →
      ∃ out, convertLoop mapping classes_list confidence_list b_i box_list = Except.ok out ∧
        out.length = box_list.length ∧
        ∀ j x0 x1 x2 x3, box_list[j]? = some [x0, x1, x2, x3] →
          ∃ c name, classes_list[b_i + j]? = some c ∧
            mapping.lookup (pyInt c) = some name ∧
            out[j]? = some { position := { minX := pyInt x0, maxX := pyInt x2, minY := pyInt x1, maxY := pyInt x3 },
                             class_id := pyInt c, box_caption := name, domain := "pixel" } := by
  intro box_list
  induction box_list with
  | nil =>
    intro b_i _ _ _
    refine ⟨[], by simp [convertLoop], by simp, ?_⟩
    intro j x0 x1 x2 x3 h
    simp at h
  | cons box rest ih =>
    intro b_i hbox hlen hmap
    have hb4 : box.length = 4 := hbox box (by simp)
    obtain ⟨x0, x1, x2, x3, rfl⟩ : ∃ a b c d, box = [a, b, c, d] := by
      match box, hb4 with
      | [a, b, c, d], _ => exact ⟨a, b, c, d, rfl⟩
    have hbi : b_i < classes_list.length := by
      simp at hlen; omega
    obtain ⟨c, hc⟩ : ∃ c, classes_list[b_i]? = some c :=
      ⟨classes_list[b_i], List.getElem?_eq_getElem hbi⟩
    have hcmem : c ∈ classes_list := List.getElem?_mem hc
    obtain ⟨name, hname⟩ := Option.isSome_iff_exists.mp (hmap c hcmem)
    obtain ⟨tail, htail, hlen', hidx⟩ :=
      ih (b_i + 1) (fun b hb => hbox b (by simp [hb])) (by simp at hlen ⊢; omega) hmap
    refine ⟨{ position := { minX := pyInt x0, maxX := pyInt x2, minY := pyInt x1, maxY := pyInt x3 },
              class_id := pyInt c, box_caption := name, domain := "pixel" } :: tail,
            ?_, by simp [hlen'], ?_⟩
    · simp [convertLoop, Bind.bind, Except.bind,
        convertBox_falsy mapping classes_list confidence_list hfalsy b_i x0 x1 x2 x3 c name hc hname,
        htail]
    · intro j y0 y1 y2 y3 hj
      cases j with
      | zero =>
        simp at hj
        obtain ⟨rfl, rfl, rfl, rfl⟩ := hj
        exact ⟨c, name, by simpa using hc, hname, by simp⟩
      | succ j =>
        obtain ⟨c', name', hc', hname', hout⟩ := hidx j y0 y1 y2 y3 (by simpa using hj)
        refine ⟨c', name', ?_, hname', by simpa using hout⟩
        have harith : b_i + (j + 1) = b_i + 1 + j := by omega
        rw [harith]; exact hc'

/-- The full conversion loop on well-formed input, non-empty confidence
case. -/
theorem convertLoop_ok_truthy (mapping : List (ℤ × String)) (classes_list : List ℚ)
    (cl : List ℚ) (hne : cl ≠ []) :
    ∀ (box_list : List (List ℚ)) (b_i : ℕ),
      (∀ b ∈ box_list, b.length = 4) →
      b_i + box_list.length ≤ classes_list.length →
      b_i + box_list.length ≤ cl.length →
      (∀ c ∈ classes_list, (mapping.lookup (pyInt c)).isSome = true) →
      ∃ out, convertLoop mapping classes_list (some cl) b_i box_list = Except.ok out ∧
        out.length = box_list.length ∧
        ∀ j x0 x1 x2 x3, box_list[j]? = some [x0, x1, x2, x3] →
          ∃ c cv name, classes_list[b_i + j]? = some c ∧
            cl[b_i + j]? = some cv ∧
            mapping.lookup (pyInt c) = some name ∧
            out[j]? = some { position := { minX := pyInt x0, maxX := pyInt x2, minY := pyInt x1, maxY := pyInt x3 },
                             class_id := pyInt c,
                             box_caption := name ++ " (" ++ toString (pyRound (100 * cv)) ++ "%)",
                             domain := "pixel" } := by
  intro box_list
  induction box_list with
  | nil =>
    intro b_i _ _ _ _
    refine ⟨[], by simp [convertLoop], by simp, ?_⟩
    intro j x0 x1 x2 x3 h
    simp at h
  | cons box rest ih =>
    intro b_i hbox hlen hlencl hmap
    have hb4 : box.length = 4 := hbox box (by simp)
    obtain ⟨x0, x1, x2, x3, rfl⟩ : ∃ a b c d, box = [a, b, c, d] := by
      match box, hb4 with
      | [a, b, c, d], _ => exact ⟨a, b, c, d, rfl⟩
    have hbi : b_i < classes_list.length := by
      simp at hlen; omega
    have hbicl : b_i < cl.length := by
      simp at hlencl; omega
    obtain ⟨c, hc⟩ : ∃ c, classes_list[b_i]? = some c :=
      ⟨classes_list[b_i], List.getElem?_eq_getElem hbi⟩
    obtain ⟨cv, hcv⟩ : ∃ cv, cl[b_i]? = some cv :=
      ⟨cl[b_i], List.getElem?_eq_getElem hbicl⟩
    have hcmem : c ∈ classes_list := List.getElem?_mem hc
    obtain ⟨name, hname⟩ := Option.isSome_iff_exists.mp (hmap c hcmem)
    obtain ⟨tail, htail, hlen', hidx⟩ :=
      ih (b_i + 1) (fun b hb => hbox b (by simp [hb]))
        (by simp at hlen ⊢; omega) (by simp at hlencl ⊢; omega) hmap
    refine ⟨{ position := { minX := pyInt x0, maxX := pyInt x2, minY := pyInt x1, maxY := pyInt x3 },
              class_id := pyInt c,
              box_caption := name ++ " (" ++ toString (pyRound (100 * cv)) ++ "%)",
              domain := "pixel" } :: tail,
            ?_, by simp [hlen'], ?_⟩
    · simp [convertLoop, Bind.bind, Except.bind,
        convertBox_truthy mapping classes_list cl hne b_i x0 x1 x2 x3 c cv name hc hcv hname,
        htail]
    · intro j y0 y1 y2 y3 hj
      cases j with
      | zero =>
        simp at hj
        obtain ⟨rfl, rfl, rfl, rfl⟩ := hj
        exact ⟨c, cv, name, by simpa using hc, by simpa using hcv, hname, by simp⟩
      | succ j =>
        obtain ⟨c', cv', name', hc', hcv', hname', hout⟩ := hidx j y0 y1 y2 y3 (by simpa using hj)
        refine ⟨c', cv', name', ?_, ?_, hname', by simpa using hout⟩
        · have harith : b_i + (j + 1) = b_i + 1 + j := by omega
          rw [harith]; exact hc'
        · have harith : b_i + (j + 1) = b_i + 1 + j := by omega
          rw [harith]; exact hcv'

/-- An empty (falsy) `confidence_list` takes the same branch as an absent
one, per loop iteration. -/
theorem convertBox_some_nil_eq_none (mapping : List (ℤ × String))
    (classes_list : List ℚ) (b_i : ℕ) (box : List ℚ) :
    convertBox mapping classes_list (some ([] : List ℚ)) b_i box =
      convertBox mapping classes_list none b_i box := by
  simp [convertBox, pyTruthyListOpt]

/-- An empty (falsy) `confidence_list` takes the same branch as an absent
one, over the whole loop. -/
theorem convertLoop_some_nil_eq_none (mapping : List (ℤ × String))
    (classes_list : List ℚ) :
    ∀ (box_list : List (List ℚ)) (b_i : ℕ),
      convertLoop mapping classes_list (some ([] : List ℚ)) b_i box_list =
        convertLoop mapping classes_list none b_i box_list := by
  intro box_list
  induction box_list with
  | nil => intro b_i; rfl
  | cons box rest ih =>
    intro b_i
    simp [convertLoop, convertBox_some_nil_eq_none, ih]

/-- One loop iteration reads the global table only at the looked-up key:
two tables agreeing there give equal results. -/
theorem convertBox_mapping_agree (m m' : List (ℤ × String)) (classes_list : List ℚ)
    (conf : Option (List ℚ)) (b_i : ℕ) (box : List ℚ)
    (h : ∀ c ∈ classes_list, m.lookup (pyInt c) = m'.lookup (pyInt c)) :
    convertBox m classes_list conf b_i box = convertBox m' classes_list conf b_i box := by
  unfold convertBox
  cases h0 : pyGet box 0 with
  | error e => simp [Bind.bind, Except.bind]
  | ok v0 =>
  cases h2 : pyGet box 2 with
  | error e => simp [Bind.bind, Except.bind]
  | ok v2 =>
  cases h1 : pyGet box 1 with
  | error e => simp [Bind.bind, Except.bind]
  | ok v1 =>
  cases h3 : pyGet box 3 with
  | error e => simp [Bind.bind, Except.bind]
  | ok v3 =>
  cases hg : pyGet classes_list b_i with
  | error e => simp [Bind.bind, Except.bind]
  | ok c =>
    have hcm : c ∈ classes_list := List.getElem?_mem (pyGet_ok.mp hg)
    have hd : dictGet m (pyInt c) = dictGet m' (pyInt c) := by
      simp [dictGet, h c hcm]
    simp [Bind.bind, Except.bind, hd]

/-- The whole loop reads the global table only at the looked-up keys. -/
theorem convertLoop_mapping_agree (m m' : List (ℤ × String)) (classes_list : List ℚ)
    (conf : Option (List ℚ))
    (h : ∀ c ∈ classes_list, m.lookup (pyInt c) = m'.lookup (pyInt c)) :
    ∀ (box_list : List (List ℚ)) (b_i : ℕ),
      convertLoop m classes_list conf b_i box_list =
        convertLoop m' classes_list conf b_i box_list := by
  intro box_list
  induction box_list with
  | nil => intro b_i; rfl
  | cons box rest ih =>
    intro b_i
    simp [convertLoop, convertBox_mapping_agree m m' classes_list conf b_i box h, ih]

/-- Length of the stacked coordinate rows. -/
theorem stackRows_length : ∀ (xs ys zs ws : List ℚ),
    xs.length = ys.length → xs.length = zs.length → xs.length = ws.length →
    (stackRows xs ys zs ws).length = xs.length := by
  intro xs
  induction xs with
  | nil => intro ys zs ws _ _ _; simp [stackRows]
  | cons x tl ih =>
    intro ys zs ws hy hz hw
    cases ys with
    | nil => simp at hy
    | cons y tly =>
    cases zs with
    | nil => simp at hz
    | cons z tlz =>
    cases ws with
    | nil => simp at hw
    | cons w tlw =>
      simp only [stackRows, List.length_cons]
      rw [ih tly tlz tlw (by simpa using hy) (by simpa using hz) (by simpa using hw)]

/-- The i-th stacked row collects the i-th entry of each coordinate
vector. -/
theorem stackRows_getElem? : ∀ (xs ys zs ws : List ℚ) (i : ℕ) (xa xb xc xd : ℚ),
    xs[i]? = some xa → ys[i]? = some xb → zs[i]? = some xc → ws[i]? = some xd →
    (stackRows xs ys zs ws)[i]? = some [xa, xb, xc, xd] := by
  intro xs
  induction xs with
  | nil => intro ys zs ws i xa xb xc xd ha; simp at ha
  | cons x tl ih =>
    intro ys zs ws i xa xb xc xd ha hb hc hd
    cases ys with
    | nil => simp at hb
    | cons y tly =>
    cases zs with
    | nil => simp at hc
    | cons z tlz =>
    cases ws with
    | nil => simp at hd
    | cons w tlw =>
    cases i with
    | zero =>
      simp at ha hb hc hd
      simp [stackRows, ha, hb, hc, hd]
    | succ i =>
      simp at ha hb hc hd
      simpa [stackRows] using ih tly tlz tlw i xa xb xc xd ha hb hc hd

/-- The `evaluate_model` loop never writes the artifact attributes set by
earlier steps. -/
theorem evalFold_frame (exs : List EvalExample) :
    ∀ s : FlowState,
      (exs.foldl eval_example_step s).config = s.config ∧
      (exs.foldl eval_example_step s).train_tfrecord_file = s.train_tfrecord_file ∧
      (exs.foldl eval_example_step s).val_tfrecord_file = s.val_tfrecord_file ∧
      (exs.foldl eval_example_step s).run_id = s.run_id ∧
      (exs.foldl eval_example_step s).model = s.model ∧
      (exs.foldl eval_example_step s).s3_path = s.s3_path := by
  induction exs with
  | nil => intro s; simp
  | cons ex rest ih =>
    intro s
    simpa [eval_example_step] using ih (eval_example_step s ex)

/-- One `assert os.environ[key]` line succeeds exactly when the variable
is set and non-empty. -/
theorem assert_env_ok_iff (env : String → Option String) (key : String) :
    assert_env env key = Except.ok () ↔ ∃ v, env key = some v ∧ v ≠ "" := by
  unfold assert_env os_environ_get py_assert
  cases h : env key with
  | none => simp [Bind.bind, Except.bind]
  | some v =>
    by_cases hv : v = "" <;> simp [Bind.bind, Except.bind, hv]

/-- The only stage `start` can hand a run to is the training stage. -/
theorem start_ok_unique (env : String → Option String) (s : Stage)
    (h : start env = Except.ok s) : s = Stage.augment_data_train_model := by
  have peel : ∀ (x : Except PyError Unit) (f : Unit → Except PyError Stage) (b : Stage),
      (x >>= f) = Except.ok b → x = Except.ok () ∧ f () = Except.ok b := by
    intro x f b hx
    cases x with
    | error e => simp [Bind.bind, Except.bind] at hx
    | ok u => cases u; exact ⟨rfl, by simpa [Bind.bind, Except.bind] using hx⟩
  unfold start at h
  obtain ⟨-, h⟩ := peel _ _ _ h
  obtain ⟨-, h⟩ := peel _ _ _ h
  obtain ⟨-, h⟩ := peel _ _ _ h
  obtain ⟨-, h⟩ := peel _ _ _ h
  obtain ⟨-, h⟩ := peel _ _ _ h
  obtain ⟨-, h⟩ := peel _ _ _ h
  obtain ⟨-, h⟩ := peel _ _ _ h
  exact (Except.ok.injEq _ _).mp h.symm

/-- The `start` step succeeds exactly when all seven required environment
variables are set and non-empty. -/
theorem start_ok_iff (env : String → Option String) :
    start env = Except.ok Stage.augment_data_train_model ↔
      ∀ key ∈ required_env_vars, ∃ v, env key = some v ∧ v ≠ "" := by
  constructor
  · intro h
    have peel : ∀ (x : Except PyError Unit) (f : Unit → Except PyError Stage) (b : Stage),
        (x >>= f) = Except.ok b → x = Except.ok () ∧ f () = Except.ok b := by
      intro x f b hx
      cases x with
      | error e => simp [Bind.bind, Except.bind] at hx
      | ok u => cases u; exact ⟨rfl, by simpa [Bind.bind, Except.bind] using hx⟩
    unfold start at h
    obtain ⟨h1, h⟩ := peel _ _ _ h
    obtain ⟨h2, h⟩ := peel _ _ _ h
    obtain ⟨h3, h⟩ := peel _ _ _ h
    obtain ⟨h4, h⟩ := peel _ _ _ h
    obtain ⟨h5, h⟩ := peel _ _ _ h
    obtain ⟨h6, h⟩ := peel _ _ _ h
    obtain ⟨h7, h⟩ := peel _ _ _ h
    intro key hkey
    simp only [required_env_vars, List.mem_cons, List.not_mem_nil, or_false] at hkey
    rcases hkey with rfl | rfl | rfl | rfl | rfl | rfl | rfl
    · exact (assert_env_ok_iff env _).mp h1
    · exact (assert_env_ok_iff env _).mp h2
    · exact (assert_env_ok_iff env _).mp h3
    · exact (assert_env_ok_iff env _).mp h4
    · exact (assert_env_ok_iff env _).mp h5
    · exact (assert_env_ok_iff env _).mp h6
    · exact (assert_env_ok_iff env _).mp h7
  · intro h
    have h1 := (assert_env_ok_iff env "WANDB_API_KEY").mpr (h _ (by simp [required_env_vars]))
    have h2 := (assert_env_ok_iff env "WANDB_ENTITY").mpr (h _ (by simp [required_env_vars]))
    have h3 := (assert_env_ok_iff env "WANDB_PROJECT").mpr (h _ (by simp [required_env_vars]))
    have h4 := (assert_env_ok_iff env "S3_BUCKET_ADDRESS").mpr (h _ (by simp [required_env_vars]))
    have h5 := (assert_env_ok_iff env "KAGGLE_USERNAME").mpr (h _ (by simp [required_env_vars]))
    have h6 := (assert_env_ok_iff env "KAGGLE_KEY").mpr (h _ (by simp [required_env_vars]))
    have h7 := (assert_env_ok_iff env "IAM_ROLE_SAGEMAKER").mpr (h _ (by simp [required_env_vars]))
    unfold start
    simp [Bind.bind, Except.bind, h1, h2, h3, h4, h5, h6, h7]

/-! ## The claims -/

/-- Claim C2: `convert_format_keras_to_wandb` maps coordinates correctly
between the KerasCV xyxy convention and the WandB position convention. For
every well-formed input, the call succeeds and the i-th output dictionary's
position has `minX = int(x_min)`, `minY = int(y_min)`, `maxX = int(x_max)`,
`maxY = int(y_max)` — integer truncation of the corresponding coordinate of
the i-th box `[x_min, y_min, x_max, y_max]`, with min and max not
swapped. -/
theorem convert_position_correct (box_list : List (List ℚ)) (classes_list : List ℚ)
    (confidence_list : Option (List ℚ))
    (hbox : ∀ b ∈ box_list, b.length = 4)
    (hlen : classes_list.length = box_list.length)
    (hmap : ∀ c ∈ classes_list, (class_mapping.lookup (pyInt c)).isSome = true)
    (hconf : ∀ cl, confidence_list = some cl → cl.length = box_list.length) :
    ∃ out, convert_format_keras_to_wandb box_list classes_list confidence_list = Except.ok out ∧
      out.length = box_list.length ∧
      ∀ (i : ℕ) (x0 x1 x2 x3 : ℚ), box_list[i]? = some [x0, x1, x2, x3] →
        ∃ bd : BoxData, out[i]? = some bd ∧
          bd.position.minX = pyInt x0 ∧ bd.position.minY = pyInt x1 ∧
          bd.position.maxX = pyInt x2 ∧ bd.position.maxY = pyInt x3 := by
  unfold convert_format_keras_to_wandb convert_format_keras_to_wandb_core
  rcases confidence_list with _ | cl
  · obtain ⟨out, hout, hlen2, hidx⟩ :=
      convertLoop_ok_falsy class_mapping classes_list none rfl box_list 0 hbox (by omega) hmap
    refine ⟨out, hout, hlen2, ?_⟩
    intro i x0 x1 x2 x3 hi
    obtain ⟨c, name, hc, hname, ho⟩ := hidx i x0 x1 x2 x3 hi
    exact ⟨_, ho, rfl, rfl, rfl, rfl⟩
  · rcases hclnil : cl with _ | ⟨cv0, cl'⟩
    · rw [convertLoop_some_nil_eq_none]
      obtain ⟨out, hout, hlen2, hidx⟩ :=
        convertLoop_ok_falsy class_mapping classes_list none rfl box_list 0 hbox (by omega) hmap
      refine ⟨out, hout, hlen2, ?_⟩
      intro i x0 x1 x2 x3 hi
      obtain ⟨c, name, hc, hname, ho⟩ := hidx i x0 x1 x2 x3 hi
      exact ⟨_, ho, rfl, rfl, rfl, rfl⟩
    · have hcl : (cv0 :: cl').length = box_list.length := hclnil ▸ hconf cl rfl
      obtain ⟨out, hout, hlen2, hidx⟩ :=
        convertLoop_ok_truthy class_mapping classes_list (cv0 :: cl') (by simp)
          box_list 0 hbox (by omega) (by omega) hmap
      refine ⟨out, hout, hlen2, ?_⟩
      intro i x0 x1 x2 x3 hi
      obtain ⟨c, cv, name, hc, hcv, hname, ho⟩ := hidx i x0 x1 x2 x3 hi
      exact ⟨_, ho, rfl, rfl, rfl, rfl⟩

/-- Witness for C2 at a concrete input. -/
theorem convert_position_correct_witness :
    (∀ b ∈ [[(1 : ℚ), 2, 3, 4]], b.length = 4) ∧
    ∃ out, convert_format_keras_to_wandb [[(1 : ℚ), 2, 3, 4]] [(1 : ℚ)] none = Except.ok out ∧
      out.length = 1 ∧
      ∃ bd : BoxData, out[0]? = some bd ∧
        bd.position.minX = pyInt 1 ∧ bd.position.minY = pyInt 2 ∧
        bd.position.maxX = pyInt 3 ∧ bd.position.maxY = pyInt 4 := by
  refine ⟨by decide, ?_⟩
  obtain ⟨out, hout, hlen, hidx⟩ :=
    convert_position_correct [[(1 : ℚ), 2, 3, 4]] [(1 : ℚ)] none
      (by decide) (by decide) (by decide) (fun cl h => by cases h)
  obtain ⟨bd, hbd, ha, hb, hc, hd⟩ := hidx 0 1 2 3 4 (by decide)
  exact ⟨out, hout, by simpa using hlen, bd, hbd, ha, hb, hc, hd⟩

/-- Claim C6: the two data transforms have no failure model beyond
malformed input. For `convert_format_keras_to_wandb`, on any input whose
boxes have 4 entries, whose class list has matching length with every
truncated class id a key of `class_mapping`, and whose confidence list is
absent or of matching length, the call returns normally (an error can only
arise from input violating these shape constraints). -/
theorem convert_wellformed_total (box_list : List (List ℚ)) (classes_list : List ℚ)
    (confidence_list : Option (List ℚ))
    (hbox : ∀ b ∈ box_list, b.length = 4)
    (hlen : classes_list.length = box_list.length)
    (hmap : ∀ c ∈ classes_list, (class_mapping.lookup (pyInt c)).isSome = true)
    (hconf : confidence_list = none ∨
      ∃ cl, confidence_list = some cl ∧ cl.length = box_list.length) :
    ∃ out, convert_format_keras_to_wandb box_list classes_list confidence_list =
      Except.ok out := by
  unfold convert_format_keras_to_wandb convert_format_keras_to_wandb_core
  rcases hconf with rfl | ⟨cl, rfl, hcl⟩
  · obtain ⟨out, hout, -, -⟩ :=
      convertLoop_ok_falsy class_mapping classes_list none rfl box_list 0 hbox (by omega) hmap
    exact ⟨out, hout⟩
  · rcases cl with _ | ⟨cv0, cl'⟩
    · rw [convertLoop_some_nil_eq_none]
      obtain ⟨out, hout, -, -⟩ :=
        convertLoop_ok_falsy class_mapping classes_list none rfl box_list 0 hbox (by omega) hmap
      exact ⟨out, hout⟩
    · obtain ⟨out, hout, -, -⟩ :=
        convertLoop_ok_truthy class_mapping classes_list (cv0 :: cl') (by simp)
          box_list 0 hbox (by omega) (by omega) hmap
      exact ⟨out, hout⟩

/-- Witness for C6 at a concrete input. -/
theorem convert_wellformed_total_witness :
    ∃ out, convert_format_keras_to_wandb [[(5 : ℚ), 6, 7, 8]] [(2 : ℚ)] (some [(1 : ℚ)]) =
      Except.ok out :=
  convert_wellformed_total [[(5 : ℚ), 6, 7, 8]] [(2 : ℚ)] (some [(1 : ℚ)])
    (by decide) (by decide) (by decide) (Or.inr ⟨[(1 : ℚ)], rfl, by decide⟩)

/-- Claim C8: `convert_format_keras_to_wandb` preserves box count and
order. On well-formed input of n boxes the output has exactly n entries;
the i-th entry is derived from `box_list[i]` and `classes_list[i]`, with
`class_id = int(classes_list[i])`, `domain = "pixel"`, and a `box_caption`
built from `class_mapping[class_id]`. -/
theorem convert_count_order_content (box_list : List (List ℚ)) (classes_list : List ℚ)
    (confidence_list : Option (List ℚ))
    (hbox : ∀ b ∈ box_list, b.length = 4)
    (hlen : classes_list.length = box_list.length)
    (hmap : ∀ c ∈ classes_list, (class_mapping.lookup (pyInt c)).isSome = true)
    (hconf : ∀ cl, confidence_list = some cl → cl.length = box_list.length) :
    ∃ out, convert_format_keras_to_wandb box_list classes_list confidence_list = Except.ok out ∧
      out.length = box_list.length ∧
      ∀ (i : ℕ) (x0 x1 x2 x3 : ℚ), box_list[i]? = some [x0, x1, x2, x3] →
        ∃ (c : ℚ) (name : String) (bd : BoxData),
          classes_list[i]? = some c ∧
          class_mapping.lookup (pyInt c) = some name ∧
          out[i]? = some bd ∧
          bd.position = { minX := pyInt x0, maxX := pyInt x2, minY := pyInt x1, maxY := pyInt x3 } ∧
          bd.class_id = pyInt c ∧
          bd.domain = "pixel" ∧
          (bd.box_caption = name ∨
            ∃ conf_text : String, bd.box_caption = name ++ " (" ++ conf_text ++ "%)") := by
  unfold convert_format_keras_to_wandb convert_format_keras_to_wandb_core
  rcases confidence_list with _ | cl
  · obtain ⟨out, hout, hlen2, hidx⟩ :=
      convertLoop_ok_falsy class_mapping classes_list none rfl box_list 0 hbox (by omega) hmap
    refine ⟨out, hout, hlen2, ?_⟩
    intro i x0 x1 x2 x3 hi
    obtain ⟨c, name, hc, hname, ho⟩ := hidx i x0 x1 x2 x3 hi
    exact ⟨c, name, _, by simpa using hc, hname, ho, rfl, rfl, rfl, Or.inl rfl⟩
  · rcases hclnil : cl with _ | ⟨cv0, cl'⟩
    · rw [convertLoop_some_nil_eq_none]
      obtain ⟨out, hout, hlen2, hidx⟩ :=
        convertLoop_ok_falsy class_mapping classes_list none rfl box_list 0 hbox (by omega) hmap
      refine ⟨out, hout, hlen2, ?_⟩
      intro i x0 x1 x2 x3 hi
      obtain ⟨c, name, hc, hname, ho⟩ := hidx i x0 x1 x2 x3 hi
      exact ⟨c, name, _, by simpa using hc, hname, ho, rfl, rfl, rfl, Or.inl rfl⟩
    · have hcl : (cv0 :: cl').length = box_list.length := hclnil ▸ hconf cl rfl
      obtain ⟨out, hout, hlen2, hidx⟩ :=
        convertLoop_ok_truthy class_mapping classes_list (cv0 :: cl') (by simp)
          box_list 0 hbox (by omega) (by omega) hmap
      refine ⟨out, hout, hlen2, ?_⟩
      intro i x0 x1 x2 x3 hi
      obtain ⟨c, cv, name, hc, hcv, hname, ho⟩ := hidx i x0 x1 x2 x3 hi
      exact ⟨c, name, _, by simpa using hc, hname, ho, rfl, rfl, rfl,
        Or.inr ⟨toString (pyRound (100 * cv)), rfl⟩⟩

/-- Witness for C8 at a concrete input. -/
theorem convert_count_order_content_witness :
    ∃ out, convert_format_keras_to_wandb [[(1 : ℚ), 2, 3, 4]] [(3 : ℚ)] none = Except.ok out ∧
      out.length = 1 ∧
      ∃ (c : ℚ) (name : String) (bd : BoxData),
        ([(3 : ℚ)] : List ℚ)[0]? = some c ∧
        class_mapping.lookup (pyInt c) = some name ∧
        out[0]? = some bd ∧ bd.class_id = pyInt c ∧ bd.domain = "pixel" := by
  obtain ⟨out, hout, hlen, hidx⟩ :=
    convert_count_order_content [[(1 : ℚ), 2, 3, 4]] [(3 : ℚ)] none
      (by decide) (by decide) (by decide) (fun cl h => by cases h)
  obtain ⟨c, name, bd, hc, hname, hbd, hpos, hcid, hdom, hcap⟩ := hidx 0 1 2 3 4 (by decide)
  exact ⟨out, hout, by simpa using hlen, c, name, bd, hc, hname, hbd, hcid, hdom⟩

/-- Claim C9: `convert_format_keras_to_wandb` treats an empty
`confidence_list` the same as an absent one. For every non-empty
well-formed `box_list`, the call with `some []` equals the call with
`none`; that call succeeds with every `box_caption` the bare class name;
and a caption carries the rounded percentage `round(100 * confidence)`
exactly when `confidence_list` is non-empty. -/
theorem convert_empty_confidence_like_none (box_list : List (List ℚ)) (classes_list : List ℚ)
    (hne : box_list ≠ [])
    (hbox : ∀ b ∈ box_list, b.length = 4)
    (hlen : classes_list.length = box_list.length)
    (hmap : ∀ c ∈ classes_list, (class_mapping.lookup (pyInt c)).isSome = true) :
    convert_format_keras_to_wandb box_list classes_list (some []) =
      convert_format_keras_to_wandb box_list classes_list none ∧
    (∃ out, convert_format_keras_to_wandb box_list classes_list none = Except.ok out ∧
      ∀ (i : ℕ) (x0 x1 x2 x3 : ℚ), box_list[i]? = some [x0, x1, x2, x3] →
        ∃ (c : ℚ) (name : String) (bd : BoxData),
          classes_list[i]? = some c ∧
          class_mapping.lookup (pyInt c) = some name ∧
          out[i]? = some bd ∧
          bd.box_caption = name) ∧
    ∀ (cv0 : ℚ) (cl' : List ℚ), (cv0 :: cl').length = box_list.length →
      ∃ out', convert_format_keras_to_wandb box_list classes_list (some (cv0 :: cl')) =
          Except.ok out' ∧
        ∀ (i : ℕ) (x0 x1 x2 x3 : ℚ), box_list[i]? = some [x0, x1, x2, x3] →
          ∃ (c cv : ℚ) (name : String) (bd : BoxData),
            classes_list[i]? = some c ∧
            (cv0 :: cl')[i]? = some cv ∧
            class_mapping.lookup (pyInt c) = some name ∧
            out'[i]? = some bd ∧
            bd.box_caption = name ++ " (" ++ toString (pyRound (100 * cv)) ++ "%)" := by
  refine ⟨?_, ?_, ?_⟩
  · unfold convert_format_keras_to_wandb convert_format_keras_to_wandb_core
    exact convertLoop_some_nil_eq_none class_mapping classes_list box_list 0
  · unfold convert_format_keras_to_wandb convert_format_keras_to_wandb_core
    obtain ⟨out, hout, -, hidx⟩ :=
      convertLoop_ok_falsy class_mapping classes_list none rfl box_list 0 hbox (by omega) hmap
    refine ⟨out, hout, ?_⟩
    intro i x0 x1 x2 x3 hi
    obtain ⟨c, name, hc, hname, ho⟩ := hidx i x0 x1 x2 x3 hi
    exact ⟨c, name, _, by simpa using hc, hname, ho, rfl⟩
  · intro cv0 cl' hcl
    unfold convert_format_keras_to_wandb convert_format_keras_to_wandb_core
    obtain ⟨out, hout, -, hidx⟩ :=
      convertLoop_ok_truthy class_mapping classes_list (cv0 :: cl') (by simp)
        box_list 0 hbox (by omega) (by omega) hmap
    refine ⟨out, hout, ?_⟩
    intro i x0 x1 x2 x3 hi
    obtain ⟨c, cv, name, hc, hcv, hname, ho⟩ := hidx i x0 x1 x2 x3 hi
    exact ⟨c, cv, name, _, by simpa using hc, by simpa using hcv, hname, ho, rfl⟩

/-- Witness for C9 at a concrete input. -/
theorem convert_empty_confidence_like_none_witness :
    convert_format_keras_to_wandb [[(1 : ℚ), 2, 3, 4]] [(4 : ℚ)] (some []) =
      convert_format_keras_to_wandb [[(1 : ℚ), 2, 3, 4]] [(4 : ℚ)] none :=
  (convert_empty_confidence_like_none [[(1 : ℚ), 2, 3, 4]] [(4 : ℚ)]
    (by decide) (by decide) (by decide) (by decide)).1

/-- Claim C5: `parse_tfrecord_fn` parses a TFRecord into a structured
example. For every well-formed serialized example it returns a dictionary
whose `images` key holds the decoded 3-channel image (3-channel by the
pixel type of `Image`) and whose `bounding_boxes` key holds `classes` (the
dense label vector) and `boxes`, a `[num_boxes, 4]` tensor formed by
stacking xmin, ymin, xmax, ymax and converting from relative `rel_xyxy`
coordinates to absolute `xyxy`, x scaled by the decoded image's width and
y by its height. -/
theorem parse_tfrecord_fn_correct (decode_jpeg : List ℕ → Image) (ex : RawExample)
    (h1 : ex.bbox_xmin.length = ex.bbox_ymin.length)
    (h2 : ex.bbox_xmin.length = ex.bbox_xmax.length)
    (h3 : ex.bbox_xmin.length = ex.bbox_ymax.length) :
    ∃ out, parse_tfrecord_fn decode_jpeg ex = Except.ok out ∧
      out.images = decode_jpeg ex.image_encoded ∧
      out.bounding_boxes.classes = ex.class_label ∧
      out.bounding_boxes.boxes.length = ex.bbox_xmin.length ∧
      ∀ (i : ℕ) (x0 y0 x1 y1 : ℚ),
        ex.bbox_xmin[i]? = some x0 → ex.bbox_ymin[i]? = some y0 →
        ex.bbox_xmax[i]? = some x1 → ex.bbox_ymax[i]? = some y1 →
        out.bounding_boxes.boxes[i]? = some
          [x0 * ((decode_jpeg ex.image_encoded).width : ℚ),
           y0 * ((decode_jpeg ex.image_encoded).height : ℚ),
           x1 * ((decode_jpeg ex.image_encoded).width : ℚ),
           y1 * ((decode_jpeg ex.image_encoded).height : ℚ)] := by
  have hcond : ex.bbox_xmin.length = ex.bbox_ymin.length ∧
      ex.bbox_xmin.length = ex.bbox_xmax.length ∧
      ex.bbox_xmin.length = ex.bbox_ymax.length := ⟨h1, h2, h3⟩
  have hstack : tfStack4 ex.bbox_xmin ex.bbox_ymin ex.bbox_xmax ex.bbox_ymax =
      Except.ok (stackRows ex.bbox_xmin ex.bbox_ymin ex.bbox_xmax ex.bbox_ymax) := by
    unfold tfStack4
    rw [if_pos hcond]
  refine ⟨⟨decode_jpeg ex.image_encoded,
           ⟨ex.class_label,
            convert_format_rel_xyxy_to_xyxy (decode_jpeg ex.image_encoded)
              (stackRows ex.bbox_xmin ex.bbox_ymin ex.bbox_xmax ex.bbox_ymax)⟩⟩,
          ?_, rfl, rfl, ?_, ?_⟩
  · simp [parse_tfrecord_fn, Bind.bind, Except.bind, hstack]
  · simp [convert_format_rel_xyxy_to_xyxy, stackRows_length _ _ _ _ h1 h2 h3]
  · intro i x0 y0 x1 y1 hx0 hy0 hx1 hy1
    have hrow := stackRows_getElem? ex.bbox_xmin ex.bbox_ymin ex.bbox_xmax ex.bbox_ymax
      i x0 y0 x1 y1 hx0 hy0 hx1 hy1
    simp [convert_format_rel_xyxy_to_xyxy, List.getElem?_map, hrow]

/-- Witness for C5 at a concrete input. -/
theorem parse_tfrecord_fn_correct_witness :
    ∃ out, parse_tfrecord_fn (fun _ => { height := 416, width := 416, pixels := [] })
      { image_encoded := [255, 216], image_height := 416, image_width := 416,
        bbox_xmin := [0], bbox_xmax := [1], bbox_ymin := [0], bbox_ymax := [1],
        class_label := [1] } = Except.ok out := by
  obtain ⟨out, hout, -⟩ :=
    parse_tfrecord_fn_correct (fun _ => { height := 416, width := 416, pixels := [] })
      { image_encoded := [255, 216], image_height := 416, image_width := 416,
        bbox_xmin := [0], bbox_xmax := [1], bbox_ymin := [0], bbox_ymax := [1],
        class_label := [1] } rfl rfl rfl
  exact ⟨out, hout⟩

/-- Claim C7: `parse_tfrecord_fn` and `convert_format_keras_to_wandb` are
pure and stateless. A call leaves the module's global state unchanged; the
result of `convert_format_keras_to_wandb` depends only on its arguments
and the looked-up entries of the `class_mapping` table (globals agreeing
there give equal results); the result of `parse_tfrecord_fn` depends only
on its arguments; and a second call on the same arguments returns the same
result. -/
theorem utils_transforms_pure_stateless (g g' : UtilsGlobals)
    (box_list : List (List ℚ)) (classes_list : List ℚ)
    (confidence_list : Option (List ℚ))
    (decode_jpeg : List ℕ → Image) (ex : RawExample)
    (hagree : ∀ c ∈ classes_list,
      g.class_mapping.lookup (pyInt c) = g'.class_mapping.lookup (pyInt c)) :
    (convert_format_keras_to_wandb_call g box_list classes_list confidence_list).1 = g ∧
    (parse_tfrecord_fn_call g decode_jpeg ex).1 = g ∧
    (convert_format_keras_to_wandb_call g box_list classes_list confidence_list).2 =
      (convert_format_keras_to_wandb_call g' box_list classes_list confidence_list).2 ∧
    (parse_tfrecord_fn_call g decode_jpeg ex).2 =
      (parse_tfrecord_fn_call g' decode_jpeg ex).2 ∧
    (convert_format_keras_to_wandb_call
        (convert_format_keras_to_wandb_call g box_list classes_list confidence_list).1
        box_list classes_list confidence_list).2 =
      (convert_format_keras_to_wandb_call g box_list classes_list confidence_list).2 := by
  refine ⟨rfl, rfl, ?_, rfl, rfl⟩
  simpa [convert_format_keras_to_wandb_call, convert_format_keras_to_wandb_core] using
    convertLoop_mapping_agree g.class_mapping g'.class_mapping classes_list confidence_list
      hagree box_list 0

/-- Witness for C7 at a concrete input. -/
theorem utils_transforms_pure_stateless_witness :
    (convert_format_keras_to_wandb_call utilsGlobals0 [[(1 : ℚ), 2, 3, 4]] [(1 : ℚ)] none).1 =
      utilsGlobals0 ∧
    (convert_format_keras_to_wandb_call utilsGlobals0 [[(1 : ℚ), 2, 3, 4]] [(1 : ℚ)] none).2 =
      (convert_format_keras_to_wandb_call utilsGlobals1 [[(1 : ℚ), 2, 3, 4]] [(1 : ℚ)] none).2 := by
  obtain ⟨hst, -, hout, -, -⟩ :=
    utils_transforms_pure_stateless utilsGlobals0 utilsGlobals1
      [[(1 : ℚ), 2, 3, 4]] [(1 : ℚ)] none
      (fun _ => { height := 0, width := 0, pixels := [] })
      ⟨[], 0, 0, [], [], [], [], []⟩ (by decide)
  exact ⟨hst, hout⟩

/-- Claim C3: the pipeline's stages execute as a directed linear sequence
in the fixed order start, augment_data_train_model, evaluate_model,
deploy, end. Every stage's registered transition is the single next stage
of that order (`List.Chain'`), the last stage has no successor, no stage
repeats in the order, and the order covers every stage, so none is
skipped, repeated or reordered. -/
theorem main_flow_stage_order :
    stageOrder = [Stage.start, Stage.augment_data_train_model, Stage.evaluate_model,
      Stage.deploy, Stage.end_] ∧
    List.Chain' (fun a b => nextStage a = some b) stageOrder ∧
    nextStage Stage.end_ = none ∧
    stageOrder.Nodup ∧
    ∀ s : Stage, s ∈ stageOrder := by
  refine ⟨rfl, ?_, rfl, ?_, ?_⟩
  · simp [stageOrder, List.chain'_cons, List.chain'_singleton, nextStage]
  · decide
  · decide

/-- Claim C4: each stage consumes exactly the artifacts persisted by an
earlier stage, and intermediate stages do not disturb them. The serialized
model and the S3 path written by `augment_data_train_model` are the values
`evaluate_model` loads (`set_weights`) and `deploy` reads (`model_data`)
respectively, and `evaluate_model` leaves `self.s3_path`, `self.config`
and `self.train_tfrecord_file` unchanged for `deploy`. -/
theorem pipeline_artifact_handoff (aext : AugmentResult) (testing : Bool)
    (s0 : FlowState) (examples : List EvalExample) (dext : DeployExt) (inst : String) :
    (augment_data_train_model aext testing s0).model =
        some { model := aext.model_json, model_weights := aext.model_weights } ∧
    (augment_data_train_model aext testing s0).s3_path = some aext.s3_put_url ∧
    (evaluate_model examples (augment_data_train_model aext testing s0)).2.set_weights_arg =
        some aext.model_weights ∧
    (evaluate_model examples (augment_data_train_model aext testing s0)).2.wandb_resume_id =
        some aext.run_id ∧
    (evaluate_model examples (augment_data_train_model aext testing s0)).1.s3_path =
        (augment_data_train_model aext testing s0).s3_path ∧
    (evaluate_model examples (augment_data_train_model aext testing s0)).1.config =
        (augment_data_train_model aext testing s0).config ∧
    (evaluate_model examples (augment_data_train_model aext testing s0)).1.train_tfrecord_file =
        (augment_data_train_model aext testing s0).train_tfrecord_file ∧
    (deploy dext inst (evaluate_model examples (augment_data_train_model aext testing s0)).1).2.head? =
        some (AwsEvent.createEndpoint (endpoint_name_of dext.now_ms) (some aext.s3_put_url) inst) := by
  have hframe := evalFold_frame
    (examples.take (((augment_data_train_model aext testing s0).config.map Config.num_examples).getD 0))
    (augment_data_train_model aext testing s0)
  refine ⟨rfl, rfl, rfl, rfl, ?_, ?_, ?_, ?_⟩
  · exact hframe.2.2.2.2.2
  · exact hframe.1
  · exact hframe.2.1
  · have hs3 : (evaluate_model examples (augment_data_train_model aext testing s0)).1.s3_path =
        some aext.s3_put_url := hframe.2.2.2.2.2
    simp [deploy, hs3]

/-- Claim C1 as amended: the deploy step does not leave a live endpoint
behind. For every run of `deploy`, its endpoint events are exactly create,
predict, delete on the one endpoint named from the clock; the endpoint is
live after the create and the test prediction (the first two events), and
after the whole step — the delete included — it is no longer live. -/
theorem deploy_endpoint_lifecycle (ext : DeployExt) (inst : String) (s : FlowState)
    (live0 : List String) :
    (deploy ext inst s).2 =
      [AwsEvent.createEndpoint (endpoint_name_of ext.now_ms) s.s3_path inst,
       AwsEvent.predictCall (endpoint_name_of ext.now_ms),
       AwsEvent.deleteEndpoint (endpoint_name_of ext.now_ms)] ∧
    endpoint_name_of ext.now_ms ∈ liveEndpoints ((deploy ext inst s).2.take 2) live0 ∧
    endpoint_name_of ext.now_ms ∉ liveEndpoints (deploy ext inst s).2 live0 := by
  refine ⟨by simp [deploy], ?_, ?_⟩
  · simp [deploy, liveEndpoints]
  · simp [deploy, liveEndpoints, List.mem_filter]

/-- Counterexample to claim C1 as stated: on a concrete run reaching
`deploy` with the artifacts of the earlier stages in place, the endpoint
created in the step does not exist (is not live) at the end of the
step. -/
theorem deploy_endpoint_not_live_cex :
    endpoint_name_of deployExt0.now_ms ∉
      liveEndpoints (deploy deployExt0 "ml.t2.medium" deployUpstreamState).2 [] := by
  simp [deploy, liveEndpoints, List.mem_filter]

/-- Claim C10: the start stage fails fast on missing credentials. `start`
proceeds to `augment_data_train_model` exactly when all seven required
environment variables are set and non-empty, and it raises an error (so no
later stage runs) exactly when one of the seven is unset or set to the
empty string. -/
theorem start_fails_fast (env : String → Option String) :
    (start env = Except.ok Stage.augment_data_train_model ↔
      ∀ key ∈ required_env_vars, ∃ v, env key = some v ∧ v ≠ "") ∧
    ((∃ e, start env = Except.error e) ↔
      ∃ key ∈ required_env_vars, env key = none ∨ env key = some "") := by
  refine ⟨start_ok_iff env, ?_, ?_⟩
  · rintro ⟨e, he⟩
    by_contra hno
    push_neg at hno
    have hall : ∀ key ∈ required_env_vars, ∃ v, env key = some v ∧ v ≠ "" := by
      intro key hkey
      obtain ⟨hn, hs⟩ := hno key hkey
      cases hk : env key with
      | none => exact absurd hk hn
      | some v =>
        refine ⟨v, rfl, ?_⟩
        intro hv
        exact hs (hv ▸ hk)
    have hok := (start_ok_iff env).mpr hall
    rw [hok] at he
    exact Except.noConfusion he
  · rintro ⟨key, hkey, hbad⟩
    cases hs : start env with
    | error e => exact ⟨e, rfl⟩
    | ok s =>
      have hstage := start_ok_unique env s hs
      subst hstage
      obtain ⟨v, hv, hvne⟩ := (start_ok_iff env).mp hs key hkey
      rcases hbad with hnone | hempty
      · rw [hv] at hnone
        exact Option.noConfusion hnone
      · rw [hv] at hempty
        exact (hvne (Option.some.inj hempty)).elim

end PlantDisease
